import Mathlib

/-!
Verification of the `pgwrapper` routing layer: a shallow embedding of the
fallback/retry orchestration in `retry.go`, the role gating in
`connection.go`, the scoped-transaction helper `ExecuteInTransaction`, the
telemetry counters, and the `Driver` accessors, together with theorems
settling the spec's claims about them.

Errors are modelled by the inductive `GoError`; a Go `error` value is
`Option GoError` (`none` = Go `nil`). `GoError.wrapped msg inner` models
`fmt.Errorf("msg: %w", inner)`: its `Error()` string is `msg ++ ": " ++
inner.Error()` and its unwrap target is `inner`.
-/

/-- Errors that flow through the wrapper. The string-producing constructors
mirror the concrete `error` values the source can meet: the three raw
transport strings matched by `isConnectionError`, `pgconn.PgError` (whose
`Error()` is `severity ++ ": " ++ message ++ " (SQLSTATE " ++ code ++ ")"`),
the sentinel errors of `errors.go`, `errors.New` values, and `fmt.Errorf`
wrapping with `%w` at the end of the format string. -/
inductive GoError where
  | connRefused
  | connReset
  | contextDeadlineExceeded
  | contextCanceled
  | pgError (severity : String) (message : String) (code : String)
  | masterOnly
  | noAvailableReplicas
  | maxRetriesExceeded
  | errorNew (msg : String)
  | wrapped (msg : String) (inner : GoError)
deriving DecidableEq, Repr

/-- The Go `err.Error()` string of each modelled error. The sentinel texts
are the ones defined in `errors.go`. -/
def errString : GoError → String
  | .connRefused => "connection refused"
  | .connReset => "connection reset by peer"
  | .contextDeadlineExceeded => "context deadline exceeded"
  | .contextCanceled => "context canceled"
  | .pgError severity message code =>
      severity ++ ": " ++ message ++ " (SQLSTATE " ++ code ++ ")"
  | .masterOnly => "this operation can only be performed on the master"
  | .noAvailableReplicas => "no available replicas"
  | .maxRetriesExceeded => "maximum number of retries exceeded"
  | .errorNew msg => msg
  | .wrapped msg inner => msg ++ ": " ++ errString inner

/-- `isConnectionError` from `retry.go`. The source compares `err.Error()`
for exact equality against three fixed strings. It then declares
`var pgErr *pgconn.PgError` and tests `if pgErr != nil`: `errors.As` is
never called, so `pgErr` is still its zero value `nil` and the SQLSTATE
switch is unreachable; the `none`-valued `pgErr` below models that declared
but never-assigned pointer. -/
def isConnectionError (err : Option GoError) : Bool :=
  match err with
  | none => false
  | some e =>
    if errString e == "context deadline exceeded"
        || errString e == "connection refused"
        || errString e == "connection reset by peer" then
      true
    else
      let pgErr : Option String := none
      match pgErr with
      | some code => code == "08001" || code == "08003" || code == "08006"
      | none => false

/-- `Telemetry` from the telemetry file: the `enabled` flag plus the four
counters and the summed query duration (all `int64`/`time.Duration` counters
incremented from zero, modelled as `Nat`). -/
structure Telemetry where
  enabled : Bool
  totalQueries : Nat
  totalErrors : Nat
  totalRetries : Nat
  connectionErrors : Nat
  queryDuration : Nat
deriving DecidableEq, Repr

/-- `Telemetry.RecordQuery`: when enabled, bumps `totalQueries` and adds the
elapsed duration. -/
def Telemetry.RecordQuery (t : Telemetry) (duration : Nat) : Telemetry :=
  if t.enabled then
    { t with totalQueries := t.totalQueries + 1,
             queryDuration := t.queryDuration + duration }
  else t

/-- `Telemetry.RecordError`: when enabled, bumps `totalErrors`. -/
def Telemetry.RecordError (t : Telemetry) : Telemetry :=
  if t.enabled then { t with totalErrors := t.totalErrors + 1 } else t

/-- `Telemetry.RecordRetry`: when enabled, bumps `totalRetries`. -/
def Telemetry.RecordRetry (t : Telemetry) : Telemetry :=
  if t.enabled then { t with totalRetries := t.totalRetries + 1 } else t

/-- `Telemetry.RecordConnectionError`: when enabled, bumps
`connectionErrors`. -/
def Telemetry.RecordConnectionError (t : Telemetry) : Telemetry :=
  if t.enabled then { t with connectionErrors := t.connectionErrors + 1 }
  else t

/-- The `Driver` of `driver.go`, reduced to the state the orchestration
reads: whether each role's `*pgx.Conn` field is non-nil, the
`replicaFallback` flag, `config.MaxRetries`, and whether `d.telemetry` is
non-nil. `master` is always non-nil after a successful `NewDriver`. -/
structure Driver where
  master : Bool
  syncSlave : Bool
  asyncSlave : Bool
  replicaFallback : Bool
  maxRetries : Nat
  telemetryPresent : Bool
deriving DecidableEq, Repr

/-- The configuration fields of `Config` that the modelled logic reads.
`MaxRetries` is a Go `int` documented as `≥ 0`, modelled as `Nat`. -/
structure Config where
  masterConnString : String
  syncSlaveConnString : String
  asyncSlaveConnString : String
  maxRetries : Nat
  enableTelemetry : Bool
  disableReplicaFallback : Bool
deriving DecidableEq, Repr

/-- `NewDriver` on the success path: each replica connection exists iff its
connection string is non-empty, `telemetry` is allocated iff
`EnableTelemetry`, and `replicaFallback := !DisableReplicaFallback`.
Connection establishment itself (network I/O) is assumed to succeed. -/
def NewDriver (cfg : Config) : Driver :=
  { master := true
    syncSlave := cfg.syncSlaveConnString != ""
    asyncSlave := cfg.asyncSlaveConnString != ""
    replicaFallback := !cfg.disableReplicaFallback
    maxRetries := cfg.maxRetries
    telemetryPresent := cfg.enableTelemetry }

/-- Role tag of a candidate in the fallback chain. -/
inductive ConnKind where
  | asyncReplica
  | syncReplica
  | master
deriving DecidableEq, Repr

/-- A candidate of the `connections` slice in `ExecuteWithFallback`: the
role of the wrapper struct and whether the `*pgx.Conn` it wraps
(`driver.asyncSlave` / `driver.syncSlave` / `driver.master`) is non-nil. -/
structure Candidate where
  kind : ConnKind
  underlyingPresent : Bool
deriving DecidableEq, Repr

/-- The `connections` slice built by `ExecuteWithFallback`: async slave,
sync slave, master, in that order, each wrapping the corresponding driver
field whether or not that field is nil. -/
def connectionsList (d : Driver) : List Candidate :=
  [⟨.asyncReplica, d.asyncSlave⟩, ⟨.syncReplica, d.syncSlave⟩,
   ⟨.master, d.master⟩]

/-- The `connInfo.conn == nil` test of the fallback loop. In the source the
`conn` field of every slice entry holds `&replicaConn{...}` or
`&masterConn{...}` — a freshly taken, never-nil pointer stored in an
interface — so the comparison against nil is false for every entry, even
when the wrapped `*pgx.Conn` (`underlyingPresent = false`) is nil. -/
def connFieldIsNil (c : Candidate) : Bool := false

/-- Prefix of the wrap applied when the fallback chain is exhausted:
`fmt.Errorf("операция не выполнена ни на одной реплике: %w", lastErr)`. -/
def fallbackFailMsg : String := "операция не выполнена ни на одной реплике"

/-- `d.telemetry != nil` guard around `RecordError` in the fallback loop. -/
def recordErrorIfPresent (d : Driver) (t : Telemetry) : Telemetry :=
  if d.telemetryPresent then t.RecordError else t

/-- `d.telemetry != nil` guard around `RecordRetry` in the retry loop. -/
def recordRetryIfPresent (d : Driver) (t : Telemetry) : Telemetry :=
  if d.telemetryPresent then t.RecordRetry else t

/-- Result of one `ExecuteWithFallback` pass: the returned error, the
telemetry after the pass, and (instrumentation) the candidates on which the
`operation` closure was actually invoked, in invocation order. -/
structure FallbackOutcome where
  error : Option GoError
  tel : Telemetry
  invoked : List Candidate
deriving DecidableEq, Repr

/-- The `for _, connInfo := range connections` loop of
`ExecuteWithFallback`, with `lastErr` threaded: skip a candidate whose
interface-typed `conn` field is nil (never, see `connFieldIsNil`); invoke
the operation; on success return nil; on failure record the error in
telemetry, return the error at once if it is not a connection error, else
remember it and continue; after the loop, wrap `lastErr` when set, else
return `ErrNoAvailableReplicas`. -/
def fallbackLoop (d : Driver) (op : Candidate → Option GoError) :
    List Candidate → Option GoError → Telemetry → FallbackOutcome
  | [], lastErr, t =>
    match lastErr with
    | some e => ⟨some (.wrapped fallbackFailMsg e), t, []⟩
    | none => ⟨some .noAvailableReplicas, t, []⟩
  | c :: rest, lastErr, t =>
    if connFieldIsNil c then fallbackLoop d op rest lastErr t
    else
      match op c with
      | none => ⟨none, t, [c]⟩
      | some e =>
        let t1 := recordErrorIfPresent d t
        if isConnectionError (some e) then
          let r := fallbackLoop d op rest (some e) t1
          ⟨r.error, r.tel, c :: r.invoked⟩
        else ⟨some e, t1, [c]⟩

/-- `ReplicaManager.ExecuteWithFallback` from `retry.go`. With
`replicaFallback` off it uses only the async replica when its connection is
non-nil (returning the single invocation's result unwrapped, with no
telemetry recording in this path) and `ErrNoAvailableReplicas` otherwise;
with fallback on it iterates the `connections` slice. -/
def ExecuteWithFallback (d : Driver) (t : Telemetry)
    (op : Candidate → Option GoError) : FallbackOutcome :=
  if d.replicaFallback then fallbackLoop d op (connectionsList d) none t
  else if d.asyncSlave then
    ⟨op ⟨.asyncReplica, true⟩, t, [⟨.asyncReplica, true⟩]⟩
  else ⟨some .noAvailableReplicas, t, []⟩

/-- Prefix of the wrap applied when the retry loop is exhausted:
`fmt.Errorf("операция не выполнена после %d попыток: %w", MaxRetries+1,
lastErr)`. -/
def retryFailMsg (maxRetries : Nat) : String :=
  "операция не выполнена после " ++ toString (maxRetries + 1) ++ " попыток"

/-- Result of `ExecuteQueryWithRetry`: the returned error, final telemetry,
and (instrumentation) the number of `ExecuteWithFallback` passes performed,
the number of `time.Sleep(RetryDelay)` calls executed, and the number of
times the `RecordRetry` call site was reached. -/
structure RetryOutcome where
  error : Option GoError
  tel : Telemetry
  passes : Nat
  sleeps : Nat
  retryCalls : Nat
deriving DecidableEq, Repr

/-- The `for attempt := 0; attempt <= MaxRetries; attempt++` loop of
`ExecuteQueryWithRetry`, indexed by the number of remaining iterations
(`MaxRetries + 1 - attempt`). Each iteration runs one fallback pass; a nil
result returns success, a non-connection error returns at once, a
connection error records a retry and, when `attempt < MaxRetries`, sleeps
`RetryDelay` before the next iteration. After the loop, `lastErr` is
wrapped with the attempt count when set, else `ErrMaxRetriesExceeded` is
returned. The loop body never reads the caller's context: `ctx` is only
forwarded to the operation and the logger, and the wait is
`time.Sleep(RetryDelay)`, which takes no context. -/
def retryLoop (d : Driver) (op : Nat → Candidate → Option GoError) :
    Nat → Nat → Option GoError → Telemetry → RetryOutcome
  | 0, _attempt, lastErr, t =>
    match lastErr with
    | some e => ⟨some (.wrapped (retryFailMsg d.maxRetries) e), t, 0, 0, 0⟩
    | none => ⟨some .maxRetriesExceeded, t, 0, 0, 0⟩
  | r + 1, attempt, lastErr, t =>
    let fb := ExecuteWithFallback d t (op attempt)
    match fb.error with
    | none => ⟨none, fb.tel, 1, 0, 0⟩
    | some e =>
      if isConnectionError (some e) then
        let t1 := recordRetryIfPresent d fb.tel
        let rec_ := retryLoop d op r (attempt + 1) (some e) t1
        ⟨rec_.error, rec_.tel, rec_.passes + 1,
         rec_.sleeps + (if attempt < d.maxRetries then 1 else 0),
         rec_.retryCalls + 1⟩
      else ⟨some e, fb.tel, 1, 0, 0⟩

/-- `ReplicaManager.ExecuteQueryWithRetry` from `retry.go`: the retry loop
started at `attempt = 0` with `MaxRetries + 1` iterations available. The
operation may differ per pass (it is a closure over mutable caller state in
Go), so it is indexed by the pass number. -/
def ExecuteQueryWithRetry (d : Driver) (t : Telemetry)
    (op : Nat → Candidate → Option GoError) : RetryOutcome :=
  retryLoop d op (d.maxRetries + 1) 0 none t

/-- The caller's cancellable context, as the retry loop can observe it:
`cancelledAtPass n` states whether the context is already cancelled when
fallback pass `n` starts (cancellation during the sleep before pass `n`
makes it true from `n` on). -/
structure Ctx where
  cancelledAtPass : Nat → Bool

/-- `ExecuteQueryWithRetry` with the caller's context made explicit. In the
source the loop forwards `ctx` to the operation but never consults
`ctx.Done()` or `ctx.Err()` itself, and sleeps with `time.Sleep`; the
context can therefore influence the run only through what the operation
returns at each pass. -/
def ExecuteQueryWithRetryCtx (d : Driver) (t : Telemetry) (ctx : Ctx)
    (op : Bool → Candidate → Option GoError) : RetryOutcome :=
  ExecuteQueryWithRetry d t (fun n c => op (ctx.cancelledAtPass n) c)

/-- `replicaConn` from `connection.go`: the wrapped `*pgx.Conn` (modelled by
what it would answer to an `Exec`-shaped call, when present) and the role
tag. -/
structure replicaConn where
  underlying : Option (String → List String → Option GoError)
  replicaType : ConnKind

/-- Result of a role-gated call on a connection wrapper: the returned
error, the command tag (`pgconn.CommandTag{}` prints as `""`), telemetry
after the call, and (instrumentation) how many times the underlying
database client connection was invoked. -/
structure GatedCall where
  err : Option GoError
  tag : String
  tel : Telemetry
  clientCalls : Nat
deriving DecidableEq, Repr

/-- `replicaConn.Exec`: `return pgconn.CommandTag{}, ErrMasterOnlyOperation`
— the underlying connection is never touched. -/
def replicaConn.Exec (rc : replicaConn) (d : Driver) (t : Telemetry)
    (sql : String) (args : List String) : GatedCall :=
  ⟨some .masterOnly, "", t, 0⟩

/-- `replicaConn.Begin`: records a telemetry error when `d.telemetry` is
non-nil, then returns `ErrMasterOnlyOperation`; the underlying connection
is never touched. -/
def replicaConn.Begin (rc : replicaConn) (d : Driver) (t : Telemetry) :
    GatedCall :=
  ⟨some .masterOnly, "", recordErrorIfPresent d t, 0⟩

/-- `replicaConn.BeginTx`: same as `Begin`, with transaction options
(unused by the gate). -/
def replicaConn.BeginTx (rc : replicaConn) (d : Driver) (t : Telemetry)
    (txOptions : Unit) : GatedCall :=
  ⟨some .masterOnly, "", recordErrorIfPresent d t, 0⟩

/-- The external behaviour driving one `ExecuteInTransaction` call: the
error `d.BeginTx` returns (already carrying its own wraps), what `fn`
returns, and what `tx.Rollback` / `tx.Commit` return when called. -/
structure TxBehavior where
  beginError : Option GoError
  fnResult : Option GoError
  rollbackResult : Option GoError
  commitResult : Option GoError
deriving DecidableEq, Repr

/-- Result of `ExecuteInTransaction`: the returned error and
(instrumentation) how many times `tx.Rollback` and `tx.Commit` were invoked
on the transaction handle, deferred guard included. -/
structure TxnOutcome where
  error : Option GoError
  rollbackCalls : Nat
  commitCalls : Nat
deriving DecidableEq, Repr

/-- `Driver.ExecuteInTransaction`: begin; `defer { if tx != nil {
tx.Rollback(ctx) } }`; run `fn`; on error, roll back explicitly and return
the `fn` error (combining in the rollback error when rollback also fails:
`fmt.Errorf("ошибка выполнения функции в транзакции: %v, ошибка отката
транзакции: %w", err, rbErr)`); on success, commit, and only on a
successful commit set `tx = nil` so the deferred rollback is skipped. The
local `tx` is still non-nil when the function returns from the `fn`-error
path or the commit-error path, so the deferred guard invokes `Rollback` on
those paths too (its return value is discarded). -/
def ExecuteInTransaction (b : TxBehavior) : TxnOutcome :=
  match b.beginError with
  | some e => ⟨some (.wrapped "ошибка начала транзакции" e), 0, 0⟩
  | none =>
    match b.fnResult with
    | some fnErr =>
      let ret : Option GoError :=
        match b.rollbackResult with
        | some rbErr =>
          some (.wrapped
            ("ошибка выполнения функции в транзакции: " ++ errString fnErr
              ++ ", ошибка отката транзакции") rbErr)
        | none => some fnErr
      ⟨ret, 2, 0⟩
    | none =>
      match b.commitResult with
      | some cErr => ⟨some (.wrapped "ошибка фиксации транзакции" cErr), 1, 1⟩
      | none => ⟨none, 0, 1⟩

/-- A connection handle as handed out by the `Driver` accessors: the direct
master wrapper, or a replica wrapper inside a `retryableConn` backed by a
fresh `ReplicaManager`. -/
inductive ConnHandle where
  | masterH
  | retryableH (kind : ConnKind)
deriving DecidableEq, Repr

/-- `Driver.SyncSlave`: when `d.syncSlave` is nil, log and `return nil`;
otherwise wrap the sync replica in a `retryableConn`. -/
def Driver.SyncSlave (d : Driver) : Option ConnHandle :=
  if d.syncSlave then some (.retryableH .syncReplica) else none

/-- `Driver.Slave`: when `d.asyncSlave` is nil, log and `return nil`;
otherwise wrap the async replica in a `retryableConn`. -/
def Driver.Slave (d : Driver) : Option ConnHandle :=
  if d.asyncSlave then some (.retryableH .asyncReplica) else none

/-- A telemetry value with all counters at zero and recording enabled: the
state `NewTelemetry()` returns. -/
def tel0 : Telemetry := ⟨true, 0, 0, 0, 0, 0⟩

/-- Pointwise order on the four monotone counters of a telemetry value. -/
def telLE (a b : Telemetry) : Prop :=
  a.totalQueries ≤ b.totalQueries ∧ a.totalErrors ≤ b.totalErrors ∧
  a.totalRetries ≤ b.totalRetries ∧ a.connectionErrors ≤ b.connectionErrors

lemma recordErrorIfPresent_retries (d : Driver) (t : Telemetry) :
    (recordErrorIfPresent d t).totalRetries = t.totalRetries ∧
    (recordErrorIfPresent d t).enabled = t.enabled := by
  unfold recordErrorIfPresent Telemetry.RecordError
  split
  · split <;> exact ⟨rfl, rfl⟩
  · exact ⟨rfl, rfl⟩

lemma recordRetryIfPresent_eq (d : Driver) (t : Telemetry)
    (hp : d.telemetryPresent = true) (ht : t.enabled = true) :
    (recordRetryIfPresent d t).totalRetries = t.totalRetries + 1 ∧
    (recordRetryIfPresent d t).enabled = true := by
  simp [recordRetryIfPresent, hp, Telemetry.RecordRetry, ht]

lemma fallbackLoop_retries (d : Driver) (op : Candidate → Option GoError) :
    ∀ (cs : List Candidate) (lastErr : Option GoError) (t : Telemetry),
      (fallbackLoop d op cs lastErr t).tel.totalRetries = t.totalRetries ∧
      (fallbackLoop d op cs lastErr t).tel.enabled = t.enabled := by
  intro cs
  induction cs with
  | nil => intro lastErr t; cases lastErr <;> simp [fallbackLoop]
  | cons c rest ih =>
    intro lastErr t
    cases hop : op c with
    | none => simp [fallbackLoop, connFieldIsNil, hop]
    | some e =>
      by_cases hc : isConnectionError (some e) = true
      · obtain ⟨ha1, hb1⟩ := recordErrorIfPresent_retries d t
        obtain ⟨ha2, hb2⟩ := ih (some e) (recordErrorIfPresent d t)
        simp only [fallbackLoop, connFieldIsNil, Bool.false_eq_true, if_false,
          hop, hc, if_true]
        exact ⟨ha2.trans ha1, hb2.trans hb1⟩
      · simp only [Bool.not_eq_true] at hc
        simp only [fallbackLoop, connFieldIsNil, Bool.false_eq_true, if_false,
          hop, hc]
        exact recordErrorIfPresent_retries d t

lemma ExecuteWithFallback_retries (d : Driver) (t : Telemetry)
    (op : Candidate → Option GoError) :
    (ExecuteWithFallback d t op).tel.totalRetries = t.totalRetries ∧
    (ExecuteWithFallback d t op).tel.enabled = t.enabled := by
  unfold ExecuteWithFallback
  split
  · exact fallbackLoop_retries d op _ none t
  · split <;> exact ⟨rfl, rfl⟩

lemma retryLoop_retries (d : Driver) (op : Nat → Candidate → Option GoError)
    (hp : d.telemetryPresent = true) :
    ∀ (remaining attempt : Nat) (lastErr : Option GoError) (t : Telemetry),
      t.enabled = true →
      (retryLoop d op remaining attempt lastErr t).tel.totalRetries
        = t.totalRetries + (retryLoop d op remaining attempt lastErr t).retryCalls ∧
      (retryLoop d op remaining attempt lastErr t).tel.enabled = true := by
  intro remaining
  induction remaining with
  | zero => intro attempt lastErr t ht; cases lastErr <;> simp [retryLoop, ht]
  | succ r ih =>
    intro attempt lastErr t ht
    obtain ⟨hfa, hfe⟩ := ExecuteWithFallback_retries d t (op attempt)
    cases hfb : (ExecuteWithFallback d t (op attempt)).error with
    | none =>
      simp only [retryLoop, hfb]
      exact ⟨by omega, hfe.trans ht⟩
    | some e =>
      by_cases hc : isConnectionError (some e) = true
      · obtain ⟨ht1, he1⟩ :=
          recordRetryIfPresent_eq d (ExecuteWithFallback d t (op attempt)).tel hp
            (hfe.trans ht)
        obtain ⟨hr2, he2⟩ :=
          ih (attempt + 1) (some e)
            (recordRetryIfPresent d (ExecuteWithFallback d t (op attempt)).tel) he1
        simp only [retryLoop, hfb, hc, if_true]
        exact ⟨by rw [hr2, ht1, hfa]; omega, he2⟩
      · simp only [Bool.not_eq_true] at hc
        simp only [retryLoop, hfb, hc, Bool.false_eq_true, if_false]
        exact ⟨by omega, hfe.trans ht⟩

lemma retryLoop_retry_sleep (d : Driver) (op : Nat → Candidate → Option GoError) :
    ∀ (remaining attempt : Nat) (lastErr : Option GoError) (t : Telemetry),
      attempt + remaining = d.maxRetries + 1 →
      ((retryLoop d op remaining attempt lastErr t).retryCalls
          = (retryLoop d op remaining attempt lastErr t).sleeps
        ∨ ((retryLoop d op remaining attempt lastErr t).retryCalls
            = (retryLoop d op remaining attempt lastErr t).sleeps + 1
           ∧ (retryLoop d op remaining attempt lastErr t).passes = remaining)) := by
  intro remaining
  induction remaining with
  | zero => intro attempt lastErr t hinv; cases lastErr <;> simp [retryLoop]
  | succ r ih =>
    intro attempt lastErr t hinv
    cases hfb : (ExecuteWithFallback d t (op attempt)).error with
    | none => simp [retryLoop, hfb]
    | some e =>
      by_cases hc : isConnectionError (some e) = true
      · by_cases hs : attempt < d.maxRetries
        · have hrec := ih (attempt + 1) (some e)
            (recordRetryIfPresent d (ExecuteWithFallback d t (op attempt)).tel)
            (by omega)
          simp only [retryLoop, hfb, hc, if_true, hs]
          rcases hrec with hrec | ⟨hrec1, hrec2⟩
          · left; omega
          · right; exact ⟨by omega, by omega⟩
        · have hr0 : r = 0 := by omega
          subst hr0
          right
          simp [retryLoop, hfb, hc, hs]
      · simp only [Bool.not_eq_true] at hc
        simp [retryLoop, hfb, hc]

lemma retryLoop_passes_pos (d : Driver) (op : Nat → Candidate → Option GoError)
    (r attempt : Nat) (lastErr : Option GoError) (t : Telemetry) :
    1 ≤ (retryLoop d op (r + 1) attempt lastErr t).passes := by
  cases hfb : (ExecuteWithFallback d t (op attempt)).error with
  | none => simp [retryLoop, hfb]
  | some e =>
    by_cases hc : isConnectionError (some e) = true
    · simp [retryLoop, hfb, hc]
    · simp only [Bool.not_eq_true] at hc
      simp [retryLoop, hfb, hc]

/-- Claim C1: the claim says that with `MaxRetries = n` and an operation
failing on every available endpoint with a transient connection error on
every attempt, `ExecuteQueryWithRetry` performs `n+1` fallback passes and
`n` sleeps. Evaluated at `MaxRetries = 2`, all three endpoints present and
fallback enabled, with the operation always returning the transient
`connection refused`: the code performs exactly 1 fallback pass and 0
sleeps, because the pass's exhaustion wrap makes `isConnectionError`
classify the error as fatal, so the retry loop exits on its first
iteration. -/
theorem claimC1_code_eval :
    (ExecuteQueryWithRetry ⟨true, true, true, true, 2, false⟩ tel0
        (fun _ _ => some .connRefused)).passes = 1 ∧
    (ExecuteQueryWithRetry ⟨true, true, true, true, 2, false⟩ tel0
        (fun _ _ => some .connRefused)).sleeps = 0 ∧
    (ExecuteQueryWithRetry ⟨true, true, true, true, 2, false⟩ tel0
        (fun _ _ => some .connRefused)).error
      = some (.wrapped fallbackFailMsg .connRefused) := by decide

/-- Claim C2: the claim says `isConnectionError` returns true for the
SQLSTATE codes 08001/08003/08006 and for transient causes wrapped with role
context. Evaluated on the code: every `pgconn.PgError`, whatever its code,
is classified false (the `errors.As` extraction is missing, so the SQLSTATE
switch is dead code), and every wrapped transient cause is classified false
(matching is exact string equality on `err.Error()`); only the three bare
strings yield true, and `nil` yields false. -/
theorem claimC2_code_eval :
    isConnectionError (some (.pgError "ERROR" "connection failure" "08001")) = false ∧
    isConnectionError (some (.pgError "FATAL" "connection does not exist" "08003")) = false ∧
    isConnectionError (some (.pgError "ERROR" "connection failure" "08006")) = false ∧
    isConnectionError (some (.wrapped "ошибка выполнения запроса на реплике"
        .connRefused)) = false ∧
    isConnectionError (some (.wrapped "ошибка выполнения запроса на мастере"
        .contextDeadlineExceeded)) = false ∧
    isConnectionError (some .connRefused) = true ∧
    isConnectionError (some .connReset) = true ∧
    isConnectionError (some .contextDeadlineExceeded) = true ∧
    isConnectionError none = false := by decide

/-- Claim C3: the claim says a candidate whose underlying connection is
absent is skipped and the operation is never invoked with it. Evaluated
with the async replica's `*pgx.Conn` nil (`underlyingPresent = false`) and
the sync replica present: the fallback pass invokes the operation on the
absent async candidate first (in Go this dereferences a nil `*pgx.Conn`),
because the `connInfo.conn == nil` guard tests the never-nil interface
value, not the wrapped connection. -/
theorem claimC3_code_eval :
    (ExecuteWithFallback ⟨true, true, false, true, 2, false⟩ tel0
        (fun c => match c.kind with
                  | .asyncReplica => some .connRefused
                  | _ => none)).invoked
      = [⟨.asyncReplica, false⟩, ⟨.syncReplica, true⟩] := by decide

/-- Claim C4: the claim says the transaction handle is consumed exactly
once — after the explicit rollback the deferred guard must not invoke
`Rollback` again. Evaluated with `fn` failing and rollback succeeding: the
original `fn` error is returned (that half of the claim holds, also when
rollback fails, where the rollback error is appended), but `Rollback` is
invoked twice — the explicit call plus the deferred guard, because `tx` is
set to nil only on the successful-commit path. -/
theorem claimC4_code_eval :
    (ExecuteInTransaction ⟨none, some (.errorNew "fn failed"), none, none⟩).error
      = some (.errorNew "fn failed") ∧
    (ExecuteInTransaction ⟨none, some (.errorNew "fn failed"), none, none⟩).rollbackCalls
      = 2 ∧
    (ExecuteInTransaction ⟨none, some (.errorNew "fn failed"),
        some (.errorNew "rollback broke"), none⟩).error
      = some (.wrapped
          "ошибка выполнения функции в транзакции: fn failed, ошибка отката транзакции"
          (.errorNew "rollback broke")) ∧
    (ExecuteInTransaction ⟨none, some (.errorNew "fn failed"),
        some (.errorNew "rollback broke"), none⟩).rollbackCalls = 2 := by decide

/-- Claim C5: `Exec`, `Begin` and `BeginTx` on a replica connection always
return `ErrMasterOnlyOperation` and never invoke the underlying database
client connection, for every SQL text, argument list, replica wrapper,
driver and telemetry state. -/
theorem claimC5_replica_gating (rc : replicaConn) (d : Driver) (t : Telemetry)
    (sql : String) (args : List String) (txOptions : Unit) :
    (rc.Exec d t sql args).err = some .masterOnly ∧
    (rc.Exec d t sql args).clientCalls = 0 ∧
    (rc.Begin d t).err = some .masterOnly ∧
    (rc.Begin d t).clientCalls = 0 ∧
    (rc.BeginTx d t txOptions).err = some .masterOnly ∧
    (rc.BeginTx d t txOptions).clientCalls = 0 :=
  ⟨rfl, rfl, rfl, rfl, rfl, rfl⟩

/-- Claim C6: an operation error classified as fatal (not a connection
error) on a candidate endpoint makes the fallback loop return that error at
once with no subsequent candidate tried, and a fatal error from the first
fallback pass makes `ExecuteQueryWithRetry` return it at once with exactly
one pass and zero sleeps, for every `MaxRetries`. -/
theorem claimC6_fatal_short_circuit (d : Driver) (t : Telemetry)
    (c : Candidate) (rest : List Candidate)
    (op1 : Candidate → Option GoError) (op : Nat → Candidate → Option GoError)
    (e1 e : GoError)
    (h1 : op1 c = some e1) (hf1 : isConnectionError (some e1) = false)
    (h2 : (ExecuteWithFallback d t (op 0)).error = some e)
    (hf2 : isConnectionError (some e) = false) :
    ((fallbackLoop d op1 (c :: rest) none t).error = some e1 ∧
     (fallbackLoop d op1 (c :: rest) none t).invoked = [c]) ∧
    ((ExecuteQueryWithRetry d t op).error = some e ∧
     (ExecuteQueryWithRetry d t op).passes = 1 ∧
     (ExecuteQueryWithRetry d t op).sleeps = 0) := by
  constructor
  · simp [fallbackLoop, connFieldIsNil, h1, hf1]
  · unfold ExecuteQueryWithRetry
    simp [retryLoop, h2, hf2]

/-- Witness for C6: the fatal `ErrMasterOnlyOperation` on the async-replica
candidate, with fallback enabled and `MaxRetries = 2`. -/
theorem claimC6_witness :
    ((fallbackLoop ⟨true, true, true, true, 2, false⟩ (fun _ => some .masterOnly)
        (⟨.asyncReplica, true⟩ :: []) none tel0).error = some .masterOnly ∧
     (fallbackLoop ⟨true, true, true, true, 2, false⟩ (fun _ => some .masterOnly)
        (⟨.asyncReplica, true⟩ :: []) none tel0).invoked = [⟨.asyncReplica, true⟩]) ∧
    ((ExecuteQueryWithRetry ⟨true, true, true, true, 2, false⟩ tel0
        (fun _ _ => some .masterOnly)).error = some .masterOnly ∧
     (ExecuteQueryWithRetry ⟨true, true, true, true, 2, false⟩ tel0
        (fun _ _ => some .masterOnly)).passes = 1 ∧
     (ExecuteQueryWithRetry ⟨true, true, true, true, 2, false⟩ tel0
        (fun _ _ => some .masterOnly)).sleeps = 0) :=
  claimC6_fatal_short_circuit ⟨true, true, true, true, 2, false⟩ tel0
    ⟨.asyncReplica, true⟩ [] (fun _ => some .masterOnly)
    (fun _ _ => some .masterOnly) .masterOnly .masterOnly rfl (by decide)
    (by decide) (by decide)

/-- Claim C7: with `DisableReplicaFallback` set, `ExecuteWithFallback`
invokes the operation only on the async replica when one is configured and
returns that single invocation's result unchanged, and returns
`ErrNoAvailableReplicas` without any invocation when no async replica is
configured. -/
theorem claimC7_disabled_fallback (cfg : Config) (t : Telemetry)
    (op : Candidate → Option GoError)
    (hd : cfg.disableReplicaFallback = true) :
    (cfg.asyncSlaveConnString ≠ "" →
      ExecuteWithFallback (NewDriver cfg) t op =
        ⟨op ⟨.asyncReplica, true⟩, t, [⟨.asyncReplica, true⟩]⟩) ∧
    (cfg.asyncSlaveConnString = "" →
      ExecuteWithFallback (NewDriver cfg) t op =
        ⟨some .noAvailableReplicas, t, []⟩) := by
  constructor
  · intro ha
    simp [ExecuteWithFallback, NewDriver, hd, ha]
  · intro ha
    simp [ExecuteWithFallback, NewDriver, hd, ha]

/-- Witness for C7: fallback disabled with the async replica configured. -/
theorem claimC7_witness :
    ((("a" : String) ≠ "" →
      ExecuteWithFallback (NewDriver ⟨"m", "", "a", 3, false, true⟩) tel0
          (fun _ => none) =
        ⟨(fun (_ : Candidate) => (none : Option GoError)) ⟨.asyncReplica, true⟩,
         tel0, [⟨.asyncReplica, true⟩]⟩) ∧
     (("a" : String) = "" →
      ExecuteWithFallback (NewDriver ⟨"m", "", "a", 3, false, true⟩) tel0
          (fun _ => none) =
        ⟨some .noAvailableReplicas, tel0, []⟩)) :=
  claimC7_disabled_fallback ⟨"m", "", "a", 3, false, true⟩ tel0 (fun _ => none) rfl

/-- Claim C10: `Driver.SyncSlave` returns nil (not an error, not a
fallback-backed handle) when the sync-replica connection is absent, and
`Driver.Slave` returns nil when the async-replica connection is absent. -/
theorem claimC10_absent_replica_nil (d d' : Driver)
    (h : d.syncSlave = false) (h' : d'.asyncSlave = false) :
    Driver.SyncSlave d = none ∧ Driver.Slave d' = none := by
  simp [Driver.SyncSlave, Driver.Slave, h, h']

/-- Witness for C10: drivers with the respective replica connection nil. -/
theorem claimC10_witness :
    Driver.SyncSlave ⟨true, false, true, true, 0, false⟩ = none ∧
    Driver.Slave ⟨true, true, false, true, 0, false⟩ = none :=
  claimC10_absent_replica_nil ⟨true, false, true, true, 0, false⟩
    ⟨true, true, false, true, 0, false⟩ rfl rfl

/-- Driver used by the C8 theorems: fallback disabled, async replica
present, `MaxRetries = 1`, no telemetry. -/
def dC8 : Driver := ⟨true, false, true, false, 1, false⟩

/-- Context for the C8 counterexample: live at pass 0, cancelled from pass
1 on — i.e. cancelled during the first inter-attempt sleep. -/
def ctxC8 : Ctx := ⟨fun n => decide (1 ≤ n)⟩

/-- Operation for the C8 counterexample: a transient `connection refused`
while the context is live; once the context is cancelled, the
context-cancellation error as `replicaConn.Query` wraps it. -/
def opC8 : Bool → Candidate → Option GoError := fun cancelled _ =>
  if cancelled then
    some (.wrapped "ошибка выполнения запроса на реплике" .contextCanceled)
  else some .connRefused

/-- Counterexample to claim C8: the context is cancelled during the first
retry delay, yet the retry loop completes the sleep (1 sleep performed) and
starts a second fallback pass (2 passes), returning the wrapped
cancellation error produced by that second pass's operation — it does not
abort the sleep, and with the context already cancelled a further attempt
is still started after the transient failure. -/
theorem claimC8_counterexample :
    (ExecuteQueryWithRetryCtx dC8 tel0 ctxC8 opC8).sleeps = 1 ∧
    (ExecuteQueryWithRetryCtx dC8 tel0 ctxC8 opC8).passes = 2 ∧
    (ExecuteQueryWithRetryCtx dC8 tel0 ctxC8 opC8).error
      = some (.wrapped "ошибка выполнения запроса на реплике" .contextCanceled) := by
  decide

/-- Claim C8 (amended): the inter-attempt delay is `time.Sleep`, and the
retry loop never consults the caller's context; whenever the first fallback
pass fails with a transient error and retries remain (`MaxRetries ≥ 1`),
the loop performs a full sleep and starts at least one further fallback
pass, regardless of the context's cancellation state. -/
theorem claimC8_amended (d : Driver) (t : Telemetry) (ctx : Ctx)
    (op : Bool → Candidate → Option GoError) (e : GoError)
    (h1 : (ExecuteWithFallback d t
        (fun c => op (ctx.cancelledAtPass 0) c)).error = some e)
    (h2 : isConnectionError (some e) = true)
    (h3 : 1 ≤ d.maxRetries) :
    1 ≤ (ExecuteQueryWithRetryCtx d t ctx op).sleeps ∧
    2 ≤ (ExecuteQueryWithRetryCtx d t ctx op).passes := by
  unfold ExecuteQueryWithRetryCtx ExecuteQueryWithRetry
  simp only [retryLoop, h1, h2, if_true]
  rw [if_pos (show 0 < d.maxRetries by omega)]
  obtain ⟨m, hm⟩ : ∃ m, d.maxRetries = m + 1 := ⟨d.maxRetries - 1, by omega⟩
  rw [hm]
  have hpos := retryLoop_passes_pos d (fun n c => op (ctx.cancelledAtPass n) c) m
      (0 + 1) (some e)
      (recordRetryIfPresent d
        (ExecuteWithFallback d t fun c => op (ctx.cancelledAtPass 0) c).tel)
  exact ⟨by omega, by omega⟩

/-- Witness for the amended C8 at the counterexample's concrete input. -/
theorem claimC8_amended_witness :
    1 ≤ (ExecuteQueryWithRetryCtx dC8 tel0 ctxC8 opC8).sleeps ∧
    2 ≤ (ExecuteQueryWithRetryCtx dC8 tel0 ctxC8 opC8).passes :=
  claimC8_amended dC8 tel0 ctxC8 opC8 .connRefused (by decide) (by decide)
    (by decide)

/-- Driver used by the C9 theorems: fallback disabled, async replica
present, `MaxRetries = 0`, telemetry allocated. -/
def dC9 : Driver := ⟨true, false, true, false, 0, true⟩

/-- Operation used by the C9 theorems: always the transient
`connection refused`. -/
def opC9 : Nat → Candidate → Option GoError := fun _ _ => some .connRefused

/-- Counterexample to claim C9: a permanently transiently-failing call with
`MaxRetries = 0` records one retry (`RecordRetry` runs on the final failed
attempt) while performing zero `RetryDelay` sleeps, so `totalRetries`
exceeds the number of sleeps. -/
theorem claimC9_counterexample :
    (ExecuteQueryWithRetry dC9 tel0 opC9).tel.totalRetries = 1 ∧
    (ExecuteQueryWithRetry dC9 tel0 opC9).sleeps = 0 := by decide

/-- Claim C9 (amended): every telemetry counter is non-decreasing under
every recorded operation; and with telemetry allocated and enabled,
`totalRetries` grows by exactly the number of `RecordRetry` call sites
executed, which equals the number of `RetryDelay` sleeps performed — except
in a call that exhausts all `MaxRetries + 1` fallback passes with transient
failures, where it exceeds the sleep count by exactly one (the final
failing pass records a retry but performs no sleep). -/
theorem claimC9_amended (d : Driver) (t t' : Telemetry)
    (op : Nat → Candidate → Option GoError) (dur : Nat)
    (hp : d.telemetryPresent = true) (he : t.enabled = true) :
    (telLE t' (t'.RecordQuery dur) ∧ telLE t' t'.RecordError ∧
     telLE t' t'.RecordRetry ∧ telLE t' t'.RecordConnectionError) ∧
    (ExecuteQueryWithRetry d t op).tel.totalRetries
      = t.totalRetries + (ExecuteQueryWithRetry d t op).retryCalls ∧
    ((ExecuteQueryWithRetry d t op).retryCalls
        = (ExecuteQueryWithRetry d t op).sleeps ∨
     ((ExecuteQueryWithRetry d t op).retryCalls
        = (ExecuteQueryWithRetry d t op).sleeps + 1 ∧
      (ExecuteQueryWithRetry d t op).passes = d.maxRetries + 1)) := by
  refine ⟨⟨?_, ?_, ?_, ?_⟩, ?_, ?_⟩
  · unfold telLE Telemetry.RecordQuery
    split <;> simp
  · unfold telLE Telemetry.RecordError
    split <;> simp
  · unfold telLE Telemetry.RecordRetry
    split <;> simp
  · unfold telLE Telemetry.RecordConnectionError
    split <;> simp
  · exact (retryLoop_retries d op hp (d.maxRetries + 1) 0 none t he).1
  · exact retryLoop_retry_sleep d op (d.maxRetries + 1) 0 none t (by omega)

/-- Witness for the amended C9 at the counterexample's concrete input. -/
theorem claimC9_amended_witness :
    (telLE tel0 (tel0.RecordQuery 5) ∧ telLE tel0 tel0.RecordError ∧
     telLE tel0 tel0.RecordRetry ∧ telLE tel0 tel0.RecordConnectionError) ∧
    (ExecuteQueryWithRetry dC9 tel0 opC9).tel.totalRetries
      = tel0.totalRetries + (ExecuteQueryWithRetry dC9 tel0 opC9).retryCalls ∧
    ((ExecuteQueryWithRetry dC9 tel0 opC9).retryCalls
        = (ExecuteQueryWithRetry dC9 tel0 opC9).sleeps ∨
     ((ExecuteQueryWithRetry dC9 tel0 opC9).retryCalls
        = (ExecuteQueryWithRetry dC9 tel0 opC9).sleeps + 1 ∧
      (ExecuteQueryWithRetry dC9 tel0 opC9).passes = dC9.maxRetries + 1)) :=
  claimC9_amended dC9 tel0 tel0 opC9 5 rfl rfl
